import Mathlib

/-!
Verification of the `computus` Go package: the Easter-date algorithm
(`Easter`), the movable-feast resolver (`relativeToEaster`,
`mustRelativeToEaster` and its named accessors), the Sunday-letter
calculator (`SundayLetters`) and the leap-year predicate (`isLeapYear`).

Dates are shallowly embedded as (year, month, day) triples.  Go's
`time.Date` constructor normalizes out-of-range day values and
`Time.AddDate(0, 0, n)` shifts a date by `n` calendar days; both are
modelled through a serial day number (days since 0000-03-01, proleptic
Gregorian): `daysFromCivil` maps a (possibly day-denormalized) civil
triple to its serial number exactly as `time.Date` does, and
`civilFromDays` maps a serial number back to the normalized civil date.
`Time.Weekday()` (Sunday = 0 .. Saturday = 6) is modelled by
`weekday`, anchored so that 2000-03-01 is a Wednesday, which is the
real-world (and Go) proleptic-Gregorian weekday assignment.
-/

namespace Computus

/-- A civil calendar date: the (year, month, day) triple observable from a
Go `time.Time` at midnight UTC. -/
structure Date where
  year : Nat
  month : Nat
  day : Nat
deriving DecidableEq, Repr

/-- Serial day number of a civil triple: days since 0000-03-01 in the
proleptic Gregorian calendar.  The day component need not be in range:
like Go's `time.Date`, day `d` contributes `d - 1` days past the first of
the month.  Defined for years ≥ 1 and months in [1, 12] (the only inputs
the package produces). -/
def daysFromCivil (y m d : Nat) : Nat :=
  let y2 := if m ≤ 2 then y - 1 else y
  let era := y2 / 400
  let yoe := y2 % 400
  let mp := if 2 < m then m - 3 else m + 9
  let doy := (153 * mp + 2) / 5 + d - 1
  let doe := yoe * 365 + yoe / 4 - yoe / 100 + doy
  era * 146097 + doe

/-- Inverse of `daysFromCivil`: the normalized civil date of a serial day
number.  The 146097-day Gregorian era is decomposed into centuries
(36524 days, the last one 36525), 4-year blocks (1461 days, the last one
of an ordinary century 1460) and years (365 days, a final long year
366). -/
def civilFromDays (n : Nat) : Date :=
  let era := n / 146097
  let doe := n % 146097
  let cen := min (doe / 36524) 3
  let dcen := doe - cen * 36524
  let quad := dcen / 1461
  let dquad := dcen - quad * 1461
  let yq := min (dquad / 365) 3
  let doy := dquad - yq * 365
  let yoe := cen * 100 + quad * 4 + yq
  let y := yoe + era * 400
  let mp := (5 * doy + 2) / 153
  let d := doy - (153 * mp + 2) / 5 + 1
  if mp < 10 then ⟨y, mp + 3, d⟩ else ⟨y + 1, mp - 9, d⟩

/-- Serial day number of a `Date`. -/
def toSerial (dt : Date) : Nat := daysFromCivil dt.year dt.month dt.day

/-- Model of Go's `time.Date (year, month, day, 0, 0, 0, 0, time.UTC)`
for month in [1, 12]: the normalized civil date of the triple's serial
day number. -/
def goDate (y m d : Nat) : Date := civilFromDays (daysFromCivil y m d)

/-- Model of Go's `t.AddDate(0, 0, days)`: shift a date by a signed
number of calendar days, crossing month and year boundaries the way the
Gregorian calendar does. -/
def addDate (dt : Date) (days : Int) : Date :=
  civilFromDays ((toSerial dt : Int) + days).toNat

/-- Model of Go's `t.Weekday()`, Sunday = 0 .. Saturday = 6. -/
def weekday (dt : Date) : Nat := (toSerial dt + 3) % 7

/-- Go source (`isLeapYear`): Gregorian leap-year test by successive
remainder checks.  Go's `%` on `int` is truncated remainder, i.e.
`Int.tmod`. -/
def isLeapYear (year : Int) : Bool :=
  if year.tmod 4 ≠ 0 then false
  else if year.tmod 100 ≠ 0 then true
  else if year.tmod 400 ≠ 0 then false
  else true

/-- Go source: a movable feast or fast whose date is relative to Easter. -/
structure RelativeToEaster where
  Name : String
  Offset : Int
deriving DecidableEq, Repr

/-- Go source: the table of movable feasts/fasts with their day offsets
from Easter Sunday. -/
def RelativeToEasterDays : List RelativeToEaster :=
  [⟨"Septuagesima Sunday", -63⟩,
   ⟨"Sexagesima Sunday", -56⟩,
   ⟨"Quinguagesima Sunday", -49⟩,
   ⟨"Ash Wednesday", -46⟩,
   ⟨"Ember Wednesday (Lent)", -39⟩,
   ⟨"Ember Friday (Lent)", -37⟩,
   ⟨"Ember Saturday (Lent)", -36⟩,
   ⟨"Passion Sunday", -14⟩,
   ⟨"Palm Sunday", -7⟩,
   ⟨"Spy Wednesday", -4⟩,
   ⟨"Holy Thursday", -3⟩,
   ⟨"Good Friday", -2⟩,
   ⟨"Holy Saturday", -1⟩,
   ⟨"Easter Monday", 1⟩,
   ⟨"Easter Tuesday", 2⟩,
   ⟨"The Octave of Easter (Low Sunday)", 7⟩,
   ⟨"Ascension", 39⟩,
   ⟨"Pentecost", 49⟩,
   ⟨"Ember Wednesday (Pentecost)", 52⟩,
   ⟨"Ember Friday (Pentecost)", 54⟩,
   ⟨"Ember Saturday (Pentecost)", 55⟩,
   ⟨"Trinity Sunday", 56⟩,
   ⟨"Corpus Christi", 60⟩]

/-- Go source (`Easter`): the Anonymous Gregorian Algorithm.  The whole
computation is done in `Int` with Go's truncated `/` (`Int.tdiv`) and `%`
(`Int.tmod`); the resulting month is always 3 or 4 and the day positive,
so the final `Int.toNat` casts are exact and `goDate` models the
`time.Date` call. -/
def Easter (year : Nat) : Date :=
  let Y : Int := year
  let a := Y.tmod 19
  let b := Y.tdiv 100
  let c := Y.tmod 100
  let d := b.tdiv 4
  let e := b.tmod 4
  let f := (b + 8).tdiv 25
  let g := (b - f + 1).tdiv 3
  let h := (19 * a + b - d - g + 15).tmod 30
  let i := c.tdiv 4
  let k := c.tmod 4
  let l := (32 + 2 * e + 2 * i - h - k).tmod 7
  let m := (a + 11 * h + 22 * l).tdiv 451
  let month := (h + l - 7 * m + 114).tdiv 31
  let day := ((h + l - 7 * m + 114).tmod 31) + 1
  goDate year month.toNat day.toNat

/-- Go's zero `time.Time` value observed as a civil date: January 1 of
year 1. -/
def zeroTime : Date := ⟨1, 1, 1⟩

/-- Go source (`relativeToEaster`): scan the table for the first entry
with the given name; on a match return Easter shifted by the entry's
offset together with `true`, otherwise the zero time and `false`. -/
def relativeToEaster (year : Nat) (name : String) : Date × Bool :=
  match RelativeToEasterDays.find? (fun r => r.Name == name) with
  | some r => (addDate (Easter year) r.Offset, true)
  | none => (zeroTime, false)

/-- Go source (`mustRelativeToEaster`): delegate to `relativeToEaster`
and panic on a miss.  The panic is embedded as `Except.error` carrying
the panic message, which names the offending feast. -/
def mustRelativeToEaster (year : Nat) (name : String) : Except String Date :=
  match relativeToEaster year name with
  | (d, true) => .ok d
  | (_, false) => .error ("computus: unknown feast/fast: " ++ name)

/-- Go source: the cyclic Sunday-letter alphabet. -/
def letters : String := "ABCDEFG"

/-- The one-byte substring `letters[i : i+1]` taken by the Go code. -/
def letterAt (i : Nat) : String := String.mk ((letters.toList.drop i).take 1)

/-- Go source (`SundayLetters`): Sunday letter(s) of a year from the
weekday of January 1; in leap years a second letter, one cyclic position
earlier, applies from February 25 on. -/
def SundayLetters (year : Nat) : String × String :=
  let jan1 := goDate year 1 1
  let wd := weekday jan1
  let letter := letterAt ((7 - wd) % 7)
  if isLeapYear (year : Int) then
    let idx := (7 - wd - 1 + 7) % 7
    (letter, letterAt idx)
  else
    (letter, "")

/-- Go source: named accessor for Ash Wednesday. -/
def AshWednesday (year : Nat) : Except String Date :=
  mustRelativeToEaster year "Ash Wednesday"

/-- Go source: named accessor for Palm Sunday. -/
def PalmSunday (year : Nat) : Except String Date :=
  mustRelativeToEaster year "Palm Sunday"

/-- Go source: named accessor for Spy Wednesday. -/
def SpyWednesday (year : Nat) : Except String Date :=
  mustRelativeToEaster year "Spy Wednesday"

/-- Go source: named accessor for Holy Thursday. -/
def HolyThursday (year : Nat) : Except String Date :=
  mustRelativeToEaster year "Holy Thursday"

/-- Go source: named accessor for Good Friday. -/
def GoodFriday (year : Nat) : Except String Date :=
  mustRelativeToEaster year "Good Friday"

/-- Go source: named accessor for Holy Saturday. -/
def HolySaturday (year : Nat) : Except String Date :=
  mustRelativeToEaster year "Holy Saturday"

/-- Go source: named accessor for Ascension. -/
def Ascension (year : Nat) : Except String Date :=
  mustRelativeToEaster year "Ascension"

/-- Go source: named accessor for Pentecost. -/
def Pentecost (year : Nat) : Except String Date :=
  mustRelativeToEaster year "Pentecost"

/-- Go source: named accessor for Corpus Christi. -/
def CorpusChristi (year : Nat) : Except String Date :=
  mustRelativeToEaster year "Corpus Christi"

/-- Go source: named accessor for the Octave of Easter (Low Sunday). -/
def OctaveOfEaster (year : Nat) : Except String Date :=
  mustRelativeToEaster year "The Octave of Easter (Low Sunday)"

/-- Go source: wrapper around `OctaveOfEaster`. -/
def LowSunday (year : Nat) : Except String Date :=
  OctaveOfEaster year

/-- Go source: named accessor for Easter Monday. -/
def EasterMonday (year : Nat) : Except String Date :=
  mustRelativeToEaster year "Easter Monday"

/-- Go source: named accessor for Easter Tuesday. -/
def EasterTuesday (year : Nat) : Except String Date :=
  mustRelativeToEaster year "Easter Tuesday"

/-- Go source: named accessor for Trinity Sunday. -/
def TrinitySunday (year : Nat) : Except String Date :=
  mustRelativeToEaster year "Trinity Sunday"

/-- Go source: named accessor for Ember Wednesday in Lent. -/
def EmberWednesdayLent (year : Nat) : Except String Date :=
  mustRelativeToEaster year "Ember Wednesday (Lent)"

/-- Go source: named accessor for Ember Friday in Lent. -/
def EmberFridayLent (year : Nat) : Except String Date :=
  mustRelativeToEaster year "Ember Friday (Lent)"

/-- Go source: named accessor for Ember Saturday in Lent. -/
def EmberSaturdayLent (year : Nat) : Except String Date :=
  mustRelativeToEaster year "Ember Saturday (Lent)"

/-- Go source: named accessor for Ember Wednesday after Pentecost. -/
def EmberWednesdayPentecost (year : Nat) : Except String Date :=
  mustRelativeToEaster year "Ember Wednesday (Pentecost)"

/-- Go source: named accessor for Ember Friday after Pentecost. -/
def EmberFridayPentecost (year : Nat) : Except String Date :=
  mustRelativeToEaster year "Ember Friday (Pentecost)"

/-- Go source: named accessor for Ember Saturday after Pentecost. -/
def EmberSaturdayPentecost (year : Nat) : Except String Date :=
  mustRelativeToEaster year "Ember Saturday (Pentecost)"

/-- Boolean check that Easter of a year lands in the documented window:
March with day at least 22, or April with day at most 25. -/
def easterWindowOK (y : Nat) : Bool :=
  let d := Easter y
  (d.month == 3 && 22 ≤ d.day) || (d.month == 4 && d.day ≤ 25)

/-- Exhaustive window check over the 1418 years 1583..3000. -/
def checkEasterWindow : Bool :=
  (List.range 1418).all fun k => easterWindowOK (1583 + k)

end Computus

namespace Computus

set_option maxHeartbeats 1000000 in
/-- Arithmetic core of the serial-number roundtrip: with the layers of
`civilFromDays` named (era, day-of-era, century, 4-year block, year,
day-of-year, shifted month), `daysFromCivil` recovers the day-of-era in
both month branches. -/
theorem daysFromCivil_layers (n era doe cen dcen quad dquad yq doy mp dd : Nat)
    (hera : era = n / 146097) (hdoe : doe = n % 146097)
    (hcen : cen = min (doe / 36524) 3)
    (hdcen : dcen = doe - cen * 36524)
    (hquad : quad = dcen / 1461)
    (hdquad : dquad = dcen - quad * 1461)
    (hyq : yq = min (dquad / 365) 3)
    (hdoy : doy = dquad - yq * 365)
    (hmp : mp = (5 * doy + 2) / 153)
    (hdd : dd = doy - (153 * mp + 2) / 5 + 1) :
    (mp < 10 →
      daysFromCivil (cen * 100 + quad * 4 + yq + era * 400) (mp + 3) dd
        = 146097 * era + doe)
    ∧ (¬ mp < 10 →
      daysFromCivil (cen * 100 + quad * 4 + yq + era * 400 + 1) (mp - 9) dd
        = 146097 * era + doe) := by
  have h2 : cen ≤ 3 ∧ cen * 36524 ≤ doe := by omega
  have h3 : dcen ≤ 36524 := by omega
  have h4 : quad ≤ 24 ∧ quad * 1461 ≤ dcen := by omega
  have h5 : dquad ≤ 1460 := by omega
  have h6 : yq ≤ 3 ∧ yq * 365 ≤ dquad := by omega
  have h7 : doy ≤ 365 := by omega
  have h8 : mp ≤ 11 := by omega
  have h9 : (153 * mp + 2) / 5 ≤ doy := by omega
  have h10 : doe = 36524 * cen + 1461 * quad + 365 * yq + doy := by omega
  have e1 : (cen * 100 + quad * 4 + yq + era * 400) / 400 = era := by omega
  have e2 : (cen * 100 + quad * 4 + yq + era * 400) % 400
      = cen * 100 + quad * 4 + yq := by omega
  have e3 : (cen * 100 + quad * 4 + yq + era * 400) % 400 / 4
      = cen * 25 + quad := by rw [e2]; omega
  have e4 : (cen * 100 + quad * 4 + yq + era * 400) % 400 / 100 = cen := by
    rw [e2]; omega
  clear hcen hyq hdcen hdquad hdoy hera hdoe
  constructor <;>
    (intro hlt;
     simp only [daysFromCivil, Nat.add_sub_cancel];
     split <;> split <;> omega)

/-- The serial-number functions are inverse: converting a serial day
number to a civil date and back is the identity. -/
theorem toSerial_civilFromDays (n : Nat) : toSerial (civilFromDays n) = n := by
  rcases hE : civilFromDays n with ⟨y, m, d⟩
  simp only [civilFromDays] at hE
  simp only [toSerial]
  have L := daysFromCivil_layers n (n / 146097) (n % 146097) _ _ _ _ _ _ _ _
    rfl rfl rfl rfl rfl rfl rfl rfl rfl rfl
  split at hE
  case isTrue h =>
    injection hE with hy hm hd
    subst hy; subst hm; subst hd
    exact (L.1 h).trans (Nat.div_add_mod n 146097)
  case isFalse h =>
    injection hE with hy hm hd
    subst hy; subst hm; subst hd
    exact (L.2 h).trans (Nat.div_add_mod n 146097)

/-- Any civil triple of a positive year sits at least 63 days after the
serial epoch, so shifting by any table offset stays nonnegative. -/
theorem daysFromCivil_pos (y m d : Nat) (h : 1 ≤ y) : 63 ≤ daysFromCivil y m d := by
  simp only [daysFromCivil]
  split <;> split <;> omega

/-- Serial lower bound for Easter of any positive year. -/
theorem toSerial_Easter_ge (y : Nat) (h : 1 ≤ y) : 63 ≤ toSerial (Easter y) := by
  simp only [Easter, goDate]
  rw [toSerial_civilFromDays]
  exact daysFromCivil_pos _ _ _ h

/-- Shifting a date by a day count moves its serial number by exactly
that count, as long as the result stays on the nonnegative side of the
epoch. -/
theorem toSerial_addDate (dt : Date) (off : Int)
    (h : 0 ≤ (toSerial dt : Int) + off) :
    (toSerial (addDate dt off) : Int) = (toSerial dt : Int) + off := by
  simp only [addDate]
  rw [toSerial_civilFromDays]
  exact Int.toNat_of_nonneg h

/-- The feast names of the table are pairwise distinct. -/
theorem names_nodup : (RelativeToEasterDays.map (fun r => r.Name)).Nodup := by
  decide

/-- Every table offset lies between -63 and 60 days. -/
theorem offsets_bounded : ∀ r ∈ RelativeToEasterDays,
    -63 ≤ r.Offset ∧ r.Offset ≤ 60 := by decide

/-- In a list of entries with pairwise-distinct names, searching for the
name of a member finds exactly that member. -/
theorem find_name_eq_some {l : List RelativeToEaster}
    (hnd : (l.map (fun x => x.Name)).Nodup) {r : RelativeToEaster} (hr : r ∈ l) :
    l.find? (fun x => x.Name == r.Name) = some r := by
  induction l with
  | nil => cases hr
  | cons a t ih =>
    simp only [List.map_cons, List.nodup_cons] at hnd
    rcases List.mem_cons.mp hr with h | h
    · subst h
      exact List.find?_cons_of_pos _ (by simp)
    · have hne : (a.Name == r.Name) = false := by
        refine beq_eq_false_iff_ne.mpr ?_
        intro he
        exact hnd.1 (by rw [he]; exact List.mem_map_of_mem _ h)
      rw [List.find?_cons_of_neg _ (by simp [hne])]
      exact ih hnd.2 h

/-- Looking up the name of a table entry resolves to Easter shifted by
the entry's offset, with the found flag set. -/
theorem relativeToEaster_mem (y : Nat) (r : RelativeToEaster)
    (hr : r ∈ RelativeToEasterDays) :
    relativeToEaster y r.Name = (addDate (Easter y) r.Offset, true) := by
  simp only [relativeToEaster]
  rw [find_name_eq_some names_nodup hr]

set_option maxRecDepth 100000 in
/-- Kernel-checked exhaustive evaluation of the Easter window over
1583..3000. -/
theorem checkEasterWindow_eq : checkEasterWindow = true := by decide!

/-- C1: Easter returns the documented literal fixed points:
Easter(1583) = 1583-04-10, Easter(1818) = 1818-03-22,
Easter(1666) = 1666-04-25, and Easter(2024) = 2024-03-31. -/
theorem easter_fixed_points :
    Easter 1583 = ⟨1583, 4, 10⟩ ∧ Easter 1818 = ⟨1818, 3, 22⟩
      ∧ Easter 1666 = ⟨1666, 4, 25⟩ ∧ Easter 2024 = ⟨2024, 3, 31⟩ := by
  decide!

/-- C2: for every year Y with 1583 ≤ Y ≤ 3000, Easter(Y) falls either in
March with day ≥ 22 or in April with day ≤ 25. -/
theorem easter_march_or_april_window (y : Nat) (h1 : 1583 ≤ y) (h2 : y ≤ 3000) :
    ((Easter y).month = 3 ∧ 22 ≤ (Easter y).day)
      ∨ ((Easter y).month = 4 ∧ (Easter y).day ≤ 25) := by
  have h := checkEasterWindow_eq
  simp only [checkEasterWindow, List.all_eq_true] at h
  have hk := h (y - 1583) (List.mem_range.mpr (by omega))
  have hy : 1583 + (y - 1583) = y := by omega
  rw [hy] at hk
  simp only [easterWindowOK, Bool.or_eq_true, Bool.and_eq_true, beq_iff_eq,
    decide_eq_true_eq] at hk
  exact hk

/-- Witness for C2 at the concrete year 2024. -/
theorem easter_march_or_april_window_witness :
    ((Easter 2024).month = 3 ∧ 22 ≤ (Easter 2024).day)
      ∨ ((Easter 2024).month = 4 ∧ (Easter 2024).day ≤ 25) :=
  easter_march_or_april_window 2024 (by decide) (by decide)

/-- C3: for every entry of the movable-feast table and every year in
[1583, 3000], the date resolved for the entry's name sits exactly Offset
calendar days from Easter (measured on the serial day-number line, which
crosses month and year boundaries correctly), and the found flag is
true. -/
theorem resolve_offset_exact (r : RelativeToEaster)
    (hr : r ∈ RelativeToEasterDays) (y : Nat) (h1 : 1583 ≤ y) (h2 : y ≤ 3000) :
    (toSerial (relativeToEaster y r.Name).1 : Int)
        - (toSerial (Easter y) : Int) = r.Offset
      ∧ (relativeToEaster y r.Name).2 = true := by
  rw [relativeToEaster_mem y r hr]
  have hb : -63 ≤ r.Offset ∧ r.Offset ≤ 60 := offsets_bounded r hr
  have hs := toSerial_Easter_ge y (by omega)
  have ha := toSerial_addDate (Easter y) r.Offset (by omega)
  refine ⟨?_, rfl⟩
  dsimp only
  rw [ha]
  omega

/-- Witness for C3 at the Ash Wednesday entry and the year 2024. -/
theorem resolve_offset_exact_witness :
    (⟨"Ash Wednesday", -46⟩ : RelativeToEaster) ∈ RelativeToEasterDays
      ∧ ((toSerial (relativeToEaster 2024 "Ash Wednesday").1 : Int)
            - (toSerial (Easter 2024) : Int) = -46
          ∧ (relativeToEaster 2024 "Ash Wednesday").2 = true) :=
  ⟨by decide,
    resolve_offset_exact ⟨"Ash Wednesday", -46⟩ (by decide) 2024
      (by decide) (by decide)⟩

/-- The two Sunday letters written as a function of the January 1
weekday and the leap-year flag. -/
theorem SundayLetters_eq (y : Nat) :
    SundayLetters y
      = (letterAt ((7 - weekday (goDate y 1 1)) % 7),
         if isLeapYear (y : Int)
           then letterAt ((7 - weekday (goDate y 1 1) - 1 + 7) % 7) else "") := by
  simp only [SundayLetters]
  split <;> rfl

/-- A weekday index is always below 7. -/
theorem weekday_lt (dt : Date) : weekday dt < 7 := Nat.mod_lt _ (by norm_num)

/-- Finite facts about the letter indices produced from a weekday: both
letters are one-character strings, the first index is below 7, and the
second index is one cyclic position before the first. -/
theorem letter_facts : ∀ w, w < 7 →
    letterAt ((7 - w) % 7) ≠ ""
      ∧ letterAt ((7 - w - 1 + 7) % 7) ≠ ""
      ∧ (7 - w) % 7 < 7
      ∧ ((7 - w) % 7 + 6) % 7 = (7 - w - 1 + 7) % 7 := by decide

/-- C4: for every year, the first Sunday letter is non-empty, the second
is non-empty exactly when the year is leap, and in leap years the second
letter sits one position earlier than the first in the cyclic alphabet
ABCDEFG. -/
theorem sundayLetters_contract (y : Nat) :
    (SundayLetters y).1 ≠ ""
      ∧ ((SundayLetters y).2 ≠ "" ↔ isLeapYear (y : Int) = true)
      ∧ (isLeapYear (y : Int) = true →
          ∃ i, i < 7 ∧ (SundayLetters y).1 = letterAt i
            ∧ (SundayLetters y).2 = letterAt ((i + 6) % 7)) := by
  have hf := letter_facts (weekday (goDate y 1 1)) (weekday_lt _)
  rw [SundayLetters_eq y]
  by_cases hL : isLeapYear (y : Int) = true
  · rw [if_pos hL]
    dsimp only
    refine ⟨hf.1, iff_of_true hf.2.1 hL, fun _ => ?_⟩
    exact ⟨(7 - weekday (goDate y 1 1)) % 7, hf.2.2.1, rfl, by rw [hf.2.2.2]⟩
  · rw [if_neg hL]
    dsimp only
    exact ⟨hf.1, iff_of_false (fun hc => hc rfl) hL, fun h => absurd h hL⟩

/-- Witness for C4 at the concrete year 2024. -/
theorem sundayLetters_contract_witness :
    (SundayLetters 2024).1 ≠ ""
      ∧ ((SundayLetters 2024).2 ≠ "" ↔ isLeapYear (2024 : Int) = true)
      ∧ (isLeapYear (2024 : Int) = true →
          ∃ i, i < 7 ∧ (SundayLetters 2024).1 = letterAt i
            ∧ (SundayLetters 2024).2 = letterAt ((i + 6) % 7)) :=
  sundayLetters_contract 2024

/-- C5: the documented literal Sunday letters, and a Sunday on January 1
always yields first letter A. -/
theorem sundayLetters_fixed_points :
    SundayLetters 2024 = ("G", "F") ∧ SundayLetters 2000 = ("B", "A")
      ∧ SundayLetters 2023 = ("A", "")
      ∧ ∀ y : Nat, weekday (goDate y 1 1) = 0 → (SundayLetters y).1 = "A" := by
  refine ⟨by decide, by decide, by decide, fun y h => ?_⟩
  rw [SundayLetters_eq y]
  dsimp only
  rw [h]
  decide

/-- Witness for C5: January 1, 2023 is a Sunday and its first letter is
A. -/
theorem sundayLetters_fixed_points_witness :
    weekday (goDate 2023 1 1) = 0 ∧ (SundayLetters 2023).1 = "A" :=
  ⟨by decide, sundayLetters_fixed_points.2.2.2 2023 (by decide)⟩

/-- C6: isLeapYear is true exactly on years divisible by 4 and either
not divisible by 100 or divisible by 400, with the documented concrete
values; the function is total on the integers by construction. -/
theorem isLeapYear_spec :
    (∀ y : Int, isLeapYear y = true ↔ (4 ∣ y ∧ (¬ (100 ∣ y) ∨ 400 ∣ y)))
      ∧ isLeapYear 2000 = true ∧ isLeapYear 2020 = true
      ∧ isLeapYear 2400 = true ∧ isLeapYear 1900 = false
      ∧ isLeapYear 2021 = false ∧ isLeapYear 2100 = false := by
  refine ⟨fun y => ?_, by decide, by decide, by decide, by decide, by decide,
    by decide⟩
  simp only [isLeapYear, Int.dvd_iff_tmod_eq_zero]
  by_cases h4 : y.tmod 4 = 0 <;> by_cases h100 : y.tmod 100 = 0 <;>
    by_cases h400 : y.tmod 400 = 0 <;> simp [h4, h100, h400]

/-- Searching the table for a name that is not in it yields no entry. -/
theorem find_name_eq_none (name : String)
    (h : name ∉ RelativeToEasterDays.map (fun r => r.Name)) :
    RelativeToEasterDays.find? (fun x => x.Name == name) = none := by
  rw [List.find?_eq_none]
  intro x hx hbe
  exact h (by rw [← beq_iff_eq.mp hbe]; exact List.mem_map_of_mem _ hx)

/-- Resolving an unknown name returns the zero time together with a
false found flag. -/
theorem relativeToEaster_not_mem (y : Nat) (name : String)
    (h : name ∉ RelativeToEasterDays.map (fun r => r.Name)) :
    relativeToEaster y name = (zeroTime, false) := by
  simp only [relativeToEaster]
  rw [find_name_eq_none name h]

/-- C7: for every year and every name absent from the movable-feast
table, the resolver returns normally with found = false; the unknown
name is signaled only through that flag. -/
theorem resolve_unknown_not_found (y : Nat) (name : String)
    (h : name ∉ RelativeToEasterDays.map (fun r => r.Name)) :
    (relativeToEaster y name).2 = false := by
  rw [relativeToEaster_not_mem y name h]

/-- Witness for C7 at the spec's example name. -/
theorem resolve_unknown_not_found_witness :
    ("Nonexistent Feast" ∉ RelativeToEasterDays.map (fun r => r.Name))
      ∧ (relativeToEaster 2024 "Nonexistent Feast").2 = false :=
  ⟨by decide, resolve_unknown_not_found 2024 "Nonexistent Feast" (by decide)⟩

/-- C8: the must-variant turns a missing name into the fatal error whose
message names the offending feast (the Go panic, embedded as an
`Except.error`), and on a present name returns exactly the date that the
resolver returns. -/
theorem must_fatal_on_unknown_name :
    (∀ (y : Nat) (name : String),
        name ∉ RelativeToEasterDays.map (fun r => r.Name) →
        mustRelativeToEaster y name
          = Except.error ("computus: unknown feast/fast: " ++ name))
      ∧ (∀ (y : Nat) (name : String),
          name ∈ RelativeToEasterDays.map (fun r => r.Name) →
          mustRelativeToEaster y name
            = Except.ok (relativeToEaster y name).1) := by
  constructor
  · intro y name h
    simp only [mustRelativeToEaster]
    rw [relativeToEaster_not_mem y name h]
  · intro y name h
    obtain ⟨r, hr, hrn⟩ := List.mem_map.mp h
    subst hrn
    simp only [mustRelativeToEaster]
    rw [relativeToEaster_mem y r hr]

/-- Witness for C8: a missing and a present name at the year 1999. -/
theorem must_fatal_on_unknown_name_witness :
    mustRelativeToEaster 1999 "Nonexistent Feast"
        = Except.error ("computus: unknown feast/fast: " ++ "Nonexistent Feast")
      ∧ mustRelativeToEaster 1999 "Pentecost"
        = Except.ok (relativeToEaster 1999 "Pentecost").1 :=
  ⟨must_fatal_on_unknown_name.1 1999 "Nonexistent Feast" (by decide),
    must_fatal_on_unknown_name.2 1999 "Pentecost" (by decide)⟩

/-- C9: every exported named accessor uses a literal name present in the
table, so for every year it returns a date and the panic branch of
the must-variant is unreachable from any accessor. -/
theorem accessors_never_panic (y : Nat) :
    (AshWednesday y).isOk = true ∧ (PalmSunday y).isOk = true
      ∧ (SpyWednesday y).isOk = true ∧ (HolyThursday y).isOk = true
      ∧ (GoodFriday y).isOk = true ∧ (HolySaturday y).isOk = true
      ∧ (Ascension y).isOk = true ∧ (Pentecost y).isOk = true
      ∧ (CorpusChristi y).isOk = true ∧ (OctaveOfEaster y).isOk = true
      ∧ (LowSunday y).isOk = true ∧ (EasterMonday y).isOk = true
      ∧ (EasterTuesday y).isOk = true ∧ (TrinitySunday y).isOk = true
      ∧ (EmberWednesdayLent y).isOk = true ∧ (EmberFridayLent y).isOk = true
      ∧ (EmberSaturdayLent y).isOk = true
      ∧ (EmberWednesdayPentecost y).isOk = true
      ∧ (EmberFridayPentecost y).isOk = true
      ∧ (EmberSaturdayPentecost y).isOk = true :=
  ⟨rfl, rfl, rfl, rfl, rfl, rfl, rfl, rfl, rfl, rfl, rfl, rfl, rfl, rfl, rfl,
    rfl, rfl, rfl, rfl, rfl⟩

/-- C10: for every year and every name absent from the movable-feast
table, the date returned alongside found = false is exactly the zero
time value, which is January 1 of year 1. -/
theorem resolve_unknown_zero_time (y : Nat) (name : String)
    (h : name ∉ RelativeToEasterDays.map (fun r => r.Name)) :
    (relativeToEaster y name).1 = zeroTime := by
  rw [relativeToEaster_not_mem y name h]

/-- Witness for C10 at the year 1999. -/
theorem resolve_unknown_zero_time_witness :
    ("Nonexistent Feast" ∉ RelativeToEasterDays.map (fun r => r.Name))
      ∧ (relativeToEaster 1999 "Nonexistent Feast").1 = zeroTime :=
  ⟨by decide, resolve_unknown_zero_time 1999 "Nonexistent Feast" (by decide)⟩

end Computus
